import Mathlib

/-!
Shallow embedding of the resume-analyzer text-extraction-and-matching pipeline
(`src/utils/resume_parser.py` and `src/utils/job_matcher.py`), together with
theorems settling the specification claims about it.

Conventions of the embedding:
* Python strings are Lean `String`s; character-level Python operations
  (`str.lower`, `str.strip`, `str.endswith`, substring tests, the regex scans)
  are modelled on the underlying `List Char`.  The modelling is faithful for
  ASCII text, which covers every input the specification and its scenarios
  mention.
* Reading bytes from disk and the spaCy/sklearn library internals that have no
  decision logic of their own (PDF decoding, the spaCy tokenizer producing the
  token stream of a `Doc`, NER) are treated as the environment: functions that
  consume their output take it as an argument (a token list, a sentence list,
  or an abstract reader).  Every piece of logic written in the repository
  itself is embedded directly.
* Python `float` arithmetic inside the similarity scorer is modelled with real
  numbers; Python exceptions are modelled with `Except`.
-/

/-- Models Python `str.lower()` (ASCII case folding; `Char.toLower` lowers
exactly the letters `A`–`Z`, matching `str.lower` on the ASCII inputs the
pipeline handles). -/
def pyLower (s : String) : String := String.mk (s.data.map Char.toLower)

/-- The whitespace characters of Python's `str.strip()` / `str.split()` and of
the regex class `\s` (ASCII part): space, tab, newline, carriage return,
vertical tab, form feed. -/
def isPySpace (c : Char) : Bool :=
  c == ' ' || c == '\t' || c == '\n' || c == '\r' || c == '\x0b' || c == '\x0c'

/-- Models Python `str.strip()`: drop leading and trailing whitespace. -/
def pyStrip (s : String) : String :=
  String.mk (((s.data.dropWhile isPySpace).reverse.dropWhile isPySpace).reverse)

/-- Models the Python substring test `needle in hay`: `needle` occurs as a
contiguous run inside `hay`. -/
def pyContains (hay needle : String) : Bool := decide (needle.data <:+: hay.data)

/-- Models Python `str.endswith(suffix)`. -/
def endswith (s suffix : String) : Bool := suffix.data.isSuffixOf s.data

/-- The maximal runs of characters satisfying `p`, in order, with the
separating characters discarded.  Used to model regex token scans
(`\b\w\w+\b`) and `str.split()`. -/
def splitRunsBy (p : Char → Bool) : List Char → List (List Char)
  | [] => []
  | c :: cs =>
    let rest := splitRunsBy p cs
    if p c then
      match cs with
      | [] => [[c]]
      | d :: _ =>
        if p d then
          match rest with
          | r :: rs => (c :: r) :: rs
          | [] => [[c]]
        else [c] :: rest
    else rest

/-- Models Python `str.split()` with no argument: split on whitespace runs,
dropping empty pieces. -/
def pySplit (s : String) : List String :=
  (splitRunsBy (fun c => !(isPySpace c)) s.data).map (fun r => String.mk r)

/-! ## Text extraction (`extract_text_from_file`, resume_parser.py lines 51-62)

`extract_text_from_pdf` / `extract_text_from_docx` wrap library decoding in
`try/except` and return `None` on any decode error; they carry no decision
logic of their own, so they enter the embedding as abstract readers of type
`String → Option String` (`none` = the Python `None` failure return). -/

/-- Models `extract_text_from_file(file_path)`: dispatch on the file extension
with `str.endswith`, returning `none` (Python `None`) for a missing path or an
unrecognized extension.  The Python function signals every failure by
returning `None`; it raises nothing. -/
def extract_text_from_file (pdfRead docxRead : String → Option String)
    (file_path : String) : Option String :=
  if file_path = "" then none
  else if endswith file_path (".pdf") then pdfRead file_path
  else if endswith file_path (".docx") then docxRead file_path
  else none

/-! ## Phone extraction (`extract_phone`, resume_parser.py lines 85-103)

The Python code runs
`re.findall(r"(\+?\d{1,3}[-\.\s]?)?(\(\d{3}\)|\d{3})[-\.\s]?\d{3}[-\.\s]?\d{4}", text)`.
Because the pattern contains two capture groups, `re.findall` returns, for
each match, only the *tuple of the two groups* — the optional country-code
group and the area-code group — not the full matched text.  The code then
joins the non-empty groups of the first match and strips non-digits.

The embedding below reimplements this exact regex with Python's
leftmost-match, greedy-with-backtracking semantics (`\d` restricted to ASCII
digits, as in all inputs at hand): candidate lists enumerate the engine's
alternatives in preference order, and the first overall success wins. -/

/-- Separator class `[-\.\s]` of the phone regex. -/
def isSepChar (c : Char) : Bool := c == '-' || c == '.' || isPySpace c

/-- Match exactly `n` digits at the front; return the digits and the rest. -/
def takeDigits : Nat → List Char → Option (List Char × List Char)
  | 0, s => some ([], s)
  | _ + 1, [] => none
  | n + 1, c :: s =>
    if c.isDigit then
      match takeDigits n s with
      | some dr => some (c :: dr.1, dr.2)
      | none => none
    else none

/-- Candidates for the optional group `(\+?\d{1,3}[-\.\s]?)?` at the front of
`s`, in Python backtracking order: with `+` before without, three digits
before two before one, trailing separator before none, and finally the
not-participating alternative (reported by `re.findall` as the empty
string). Each candidate is (captured text, remaining input). -/
def group1Cands (s : List Char) : List (List Char × List Char) :=
  let plusOpts : List (List Char × List Char) :=
    match s with
    | '+' :: r => [(['+'], r), ([], s)]
    | _ => [([], s)]
  let withDigits := plusOpts.flatMap (fun pr =>
    [3, 2, 1].filterMap (fun n =>
      match takeDigits n pr.2 with
      | some dr => some (pr.1 ++ dr.1, dr.2)
      | none => none))
  let withSep := withDigits.flatMap (fun gr =>
    match gr.2 with
    | c :: r2 => if isSepChar c then [(gr.1 ++ [c], r2), (gr.1, gr.2)] else [(gr.1, gr.2)]
    | [] => [(gr.1, gr.2)])
  withSep ++ [([], s)]

/-- Candidates for the area-code group `(\(\d{3}\)|\d{3})`, parenthesized
alternative first. -/
def group2Cands (s : List Char) : List (List Char × List Char) :=
  let paren : List (List Char × List Char) :=
    match s with
    | '(' :: r =>
      match takeDigits 3 r with
      | some dr =>
        match dr.2 with
        | ')' :: r2 => [('(' :: (dr.1 ++ [')']), r2)]
        | _ => []
      | none => []
    | _ => []
  let plain : List (List Char × List Char) :=
    match takeDigits 3 s with
    | some dr => [(dr.1, dr.2)]
    | none => []
  paren ++ plain

/-- Candidates for an optional separator `[-\.\s]?`: consume it first, then
skip it. -/
def sepCands (s : List Char) : List (List Char) :=
  match s with
  | c :: r => if isSepChar c then [r, s] else [s]
  | [] => [s]

/-- Does the uncaptured tail `[-\.\s]?\d{3}[-\.\s]?\d{4}` match at the front
of `s` (under full backtracking)? -/
def phoneTailMatches (s : List Char) : Bool :=
  (sepCands s).any (fun r1 =>
    match takeDigits 3 r1 with
    | some dr =>
      (sepCands dr.2).any (fun r3 =>
        match takeDigits 4 r3 with
        | some _ => true
        | none => false)
    | none => false)

/-- The phone regex anchored at the front of `s`: on success, the pair of
captured groups (country code, area code) of the match the Python engine
reports. -/
def phoneMatchAt (s : List Char) : Option (List Char × List Char) :=
  (group1Cands s).findSome? (fun g1 =>
    (group2Cands g1.2).findSome? (fun g2 =>
      if phoneTailMatches g2.2 then some (g1.1, g2.1) else none))

/-- Leftmost match of the phone regex: the group pair `re.findall` lists
first. -/
def findFirstPhone : List Char → Option (List Char × List Char)
  | [] => phoneMatchAt []
  | c :: cs =>
    match phoneMatchAt (c :: cs) with
    | some m => some m
    | none => findFirstPhone cs

/-- Models `extract_phone(text)`: join the two captured groups of the first
`findall` tuple and delete every non-digit (`re.sub(r"[^0-9]", "", ...)`);
sentinel when the regex finds nothing. -/
def extract_phone (text : String) : String :=
  match findFirstPhone text.data with
  | some m => String.mk ((m.1 ++ m.2).filter Char.isDigit)
  | none => "Phone Not Found"

/-! ## Education extraction (`extract_education`, resume_parser.py lines 105-123)

spaCy's sentence splitter (`doc.sents`) is environment; the embedded function
takes the sentence texts in document order and replays the Python loop:
lowercase each sentence, keep it (stripped) when any keyword is a substring,
then join with newlines or fall back to the sentinel message. -/

def education_keywords : List String :=
  ["education", "university", "college", "institute", "bachelor", "master", "phd",
   "degree", "qualification", "academic", "school", "cgpa", "gpa"]

/-- The loop condition: `any(keyword in sent_text for keyword in education_keywords)`
with `sent_text = sent.text.lower()`. -/
def eduKeep (sent : String) : Bool :=
  education_keywords.any (fun k => pyContains (pyLower sent) k)

/-- Models `extract_education`: the Python `for sent in text_doc.sents` loop as a
left fold appending `sent.text.strip()` for each qualifying sentence, then
`"\n".join(...)` or the sentinel. -/
def extract_education (sents : List String) : String :=
  let kept := sents.foldl (fun acc sent => if eduKeep sent then acc ++ [pyStrip sent] else acc) []
  if kept = [] then "Education information not clearly found"
  else String.intercalate ("\n") kept

/-! ## Skill extraction (`extract_skills`, resume_parser.py lines 125-161, and
`extract_skills_from_text`, job_matcher.py lines 51-81)

The spaCy `Matcher` is given, for each vocabulary phrase, the token pattern
`[{"LOWER": tok} for tok in skill.split()]`; a pattern matches a span of
consecutive document tokens whose lowercase forms equal the pattern tokens.
The tokens of the `Doc` are environment (spaCy tokenization), so the embedded
functions consume the document as a token list.  The match set is the set of
`skill.lower()` for every vocabulary phrase with at least one matching span;
Python's `set` is modelled as a deduplicated list. -/

/-- The default skill vocabulary of `extract_skills` (resume_parser.py). -/
def default_skills_list : List String :=
  ["python", "java", "c++", "javascript", "react", "angular", "vue", "node.js",
   "sql", "nosql", "mongodb", "postgresql", "mysql",
   "aws", "azure", "gcp", "docker", "kubernetes",
   "machine learning", "deep learning", "tensorflow", "pytorch", "keras", "scikit-learn",
   "data analysis", "data science", "pandas", "numpy", "matplotlib", "seaborn",
   "natural language processing", "nlp", "spacy", "nltk",
   "agile", "scrum", "jira", "git", "communication", "problem solving", "teamwork"]

/-- The default skill vocabulary of `extract_skills_from_text`
(job_matcher.py); the source duplicates the same literal list. -/
def jm_predefined_skills_list : List String :=
  ["python", "java", "c++", "javascript", "react", "angular", "vue", "node.js",
   "sql", "nosql", "mongodb", "postgresql", "mysql",
   "aws", "azure", "gcp", "docker", "kubernetes",
   "machine learning", "deep learning", "tensorflow", "pytorch", "keras", "scikit-learn",
   "data analysis", "data science", "pandas", "numpy", "matplotlib", "seaborn",
   "natural language processing", "nlp", "spacy", "nltk",
   "agile", "scrum", "jira", "git", "communication", "problem solving", "teamwork"]

/-- The lowercase forms of the document tokens, as compared by the `LOWER`
attribute of the matcher patterns. -/
def lowerTokens (doc : List String) : List String := doc.map pyLower

/-- Does the token pattern of `skill` (its whitespace-split words) match the
span of `doc` starting at token index `i`? -/
def skillMatchAt (skill : String) (doc : List String) (i : Nat) : Bool :=
  decide (((lowerTokens doc).drop i).take (pySplit skill).length = pySplit skill)

/-- Does the matcher report at least one span for `skill` in `doc`? -/
def skillHasMatch (doc : List String) (skill : String) : Bool :=
  (List.range (doc.length + 1)).any (fun i => skillMatchAt skill doc i)

/-- The `found_skills` set: `skill.lower()` for each vocabulary phrase with a
match, deduplicated (Python `set`). -/
def matcherSkills (doc : List String) (skills_list : List String) : List String :=
  ((skills_list.filter (fun sk => skillHasMatch doc sk)).map pyLower).dedup

/-- Models `extract_skills(text_doc)` (resume side): the found set as a list,
or the single-element sentinel when nothing matched. -/
def extract_skills (doc : List String) (skills_list : List String) : List String :=
  let found := matcherSkills doc skills_list
  if found = [] then ["No specific skills found from the predefined list"] else found

/-- Models `extract_skills_from_text(text, nlp)` (JD side): the found set as a
list; the empty-input guard of the Python code likewise yields `[]`. -/
def extract_skills_from_text (doc : List String) (skills_list : List String) : List String :=
  matcherSkills doc skills_list

/-! ## Skill comparison (`compare_skills`, job_matcher.py lines 83-100) -/

/-- The result record of `compare_skills`; Python sets are modelled as
deduplicated lists, membership being the observable of a set. -/
structure ComparisonResult where
  matched_skills : List String
  missing_skills : List String
  jd_skills_parsed : List String

/-- Models `compare_skills(resume_skills, jd_skills)`: lowercase both inputs
into sets, then `intersection`, `difference`, and the deduplicated JD set. -/
def compare_skills (resume_skills jd_skills : List String) : ComparisonResult :=
  let set_resume_skills := (resume_skills.map pyLower).dedup
  let set_jd_skills := (jd_skills.map pyLower).dedup
  ⟨set_resume_skills.filter (fun s => decide (s ∈ set_jd_skills)),
   set_jd_skills.filter (fun s => decide (s ∉ set_resume_skills)),
   set_jd_skills⟩

/-! ## Similarity scorer (`match_resume_to_jd`, job_matcher.py lines 23-49)

`TfidfVectorizer(stop_words='english')` with default settings:
* documents are lowercased and tokenized by the pattern `\b\w\w+\b`
  (maximal word-character runs of length at least two);
* tokens on the fixed English stop-word list are discarded;
* the vocabulary is the set of remaining terms of the 2-document corpus, and
  `fit_transform` raises `ValueError: empty vocabulary` when it is empty;
* each document's vector holds raw term counts weighted by the smoothed
  inverse document frequency `ln((1+n)/(1+df)) + 1` with `n = 2` documents
  (rows are then l2-normalized, which cancels in the cosine);
* `cosine_similarity` renormalizes the rows, mapping a zero row to zero
  instead of dividing by zero.

Python float arithmetic is modelled over `ℝ`; the `try/except` wrapping the
whole computation is modelled with `Except`. -/

/-- The fixed English stop-word list applied by
`TfidfVectorizer(stop_words='english')` (sklearn's `ENGLISH_STOP_WORDS`
frozenset). -/
def english_stop_words : List String :=
  ["a", "about", "above", "across", "after", "afterwards", "again", "against",
   "all", "almost", "alone", "along", "already", "also", "although", "always",
   "am", "among", "amongst", "amoungst", "amount", "an", "and", "another",
   "any", "anyhow", "anyone", "anything", "anyway", "anywhere", "are", "around",
   "as", "at", "back", "be", "became", "because", "become", "becomes",
   "becoming", "been", "before", "beforehand", "behind", "being", "below",
   "beside", "besides", "between", "beyond", "bill", "both", "bottom", "but",
   "by", "call", "can", "cannot", "cant", "co", "con", "could", "couldnt",
   "cry", "de", "describe", "detail", "do", "done", "down", "due", "during",
   "each", "eg", "eight", "either", "eleven", "else", "elsewhere", "empty",
   "enough", "etc", "even", "ever", "every", "everyone", "everything",
   "everywhere", "except", "few", "fifteen", "fifty", "fill", "find", "fire",
   "first", "five", "for", "former", "formerly", "forty", "found", "four",
   "from", "front", "full", "further", "get", "give", "go", "had", "has",
   "hasnt", "have", "he", "hence", "her", "here", "hereafter", "hereby",
   "herein", "hereupon", "hers", "herself", "him", "himself", "his", "how",
   "however", "hundred", "i", "ie", "if", "in", "inc", "indeed", "interest",
   "into", "is", "it", "its", "itself", "keep", "last", "latter", "latterly",
   "least", "less", "ltd", "made", "many", "may", "me", "meanwhile", "might",
   "mill", "mine", "more", "moreover", "most", "mostly", "move", "much",
   "must", "my", "myself", "name", "namely", "neither", "never",
   "nevertheless", "next", "nine", "no", "nobody", "none", "noone", "nor",
   "not", "nothing", "now", "nowhere", "of", "off", "often", "on", "once",
   "one", "only", "onto", "or", "other", "others", "otherwise", "our", "ours",
   "ourselves", "out", "over", "own", "part", "per", "perhaps", "please",
   "put", "rather", "re", "same", "see", "seem", "seemed", "seeming", "seems",
   "serious", "several", "she", "should", "show", "side", "since", "sincere",
   "six", "sixty", "so", "some", "somehow", "someone", "something",
   "sometime", "sometimes", "somewhere", "still", "such", "system", "take",
   "ten", "than", "that", "the", "their", "them", "themselves", "then",
   "thence", "there", "thereafter", "thereby", "therefore", "therein",
   "thereupon", "these", "they", "thick", "thin", "third", "this", "those",
   "though", "three", "through", "throughout", "thru", "thus", "to",
   "together", "too", "top", "toward", "towards", "twelve", "twenty", "two",
   "un", "under", "until", "up", "upon", "us", "very", "via", "was", "we",
   "well", "were", "what", "whatever", "when", "whence", "whenever", "where",
   "whereafter", "whereas", "whereby", "wherein", "whereupon", "wherever",
   "whether", "which", "while", "whither", "who", "whoever", "whole", "whom",
   "whose", "why", "will", "with", "within", "without", "would", "yet", "you",
   "your", "yours", "yourself", "yourselves"]

/-- Word characters of the regex class `\w` (ASCII part). -/
def isWordChar (c : Char) : Bool := c.isAlphanum || c == '_'

/-- The vectorizer's tokenizer: lowercase, then the matches of `\b\w\w+\b` —
maximal word-character runs of length at least two. -/
def tokenize (s : String) : List String :=
  ((splitRunsBy isWordChar (pyLower s).data).filter (fun r => decide (2 ≤ r.length))).map
    (fun r => String.mk r)

/-- The tokens surviving stop-word removal; these carry the document's
vector. -/
def validTokens (s : String) : List String :=
  (tokenize s).filter (fun t => decide (t ∉ english_stop_words))

/-- Raw term frequency of `t` in a tokenized document. -/
def termCount (doc : List String) (t : String) : Nat := doc.count t

/-- Document frequency of `t` over the 2-document corpus. -/
def docFreq (tr tj : List String) (t : String) : Nat :=
  (if t ∈ tr then 1 else 0) + (if t ∈ tj then 1 else 0)

/-- Smoothed inverse document frequency, `ln((1+n)/(1+df)) + 1` with `n = 2`. -/
noncomputable def idfWeight (tr tj : List String) (t : String) : ℝ :=
  Real.log (3 / (1 + (docFreq tr tj t : ℝ))) + 1

/-- The tf-idf coordinate of document `doc` at term `t` (before the l2 row
normalization, which cancels inside the cosine). -/
noncomputable def tfidfAt (tr tj doc : List String) (t : String) : ℝ :=
  (termCount doc t : ℝ) * idfWeight tr tj t

/-- The vocabulary of the 2-document corpus. -/
def vocabOf (tr tj : List String) : Finset String := (tr ++ tj).toFinset

/-- Euclidean inner product of the tf-idf vectors of documents `a` and `b`
over the corpus vocabulary. -/
noncomputable def tfidfDot (tr tj a b : List String) : ℝ :=
  ∑ t ∈ vocabOf tr tj, tfidfAt tr tj a t * tfidfAt tr tj b t

/-- Cosine similarity of the two documents' tf-idf vectors, with sklearn's
zero-norm guard: a zero vector is left unnormalized, so the similarity is 0
rather than a division by zero. -/
noncomputable def cosineTfidf (tr tj : List String) : ℝ :=
  if Real.sqrt (tfidfDot tr tj tr tr) = 0 ∨ Real.sqrt (tfidfDot tr tj tj tj) = 0 then 0
  else tfidfDot tr tj tr tj /
    (Real.sqrt (tfidfDot tr tj tr tr) * Real.sqrt (tfidfDot tr tj tj tj))

/-- The body of the `try` block: `fit_transform` on the two texts followed by
`cosine_similarity`.  `fit_transform` raises (`Except.error`) exactly when the
corpus vocabulary is empty. -/
noncomputable def tfidf_similarity (resume_text jd_text : String) : Except String ℝ :=
  if validTokens resume_text = [] ∧ validTokens jd_text = [] then
    Except.error "empty vocabulary; perhaps the documents only contain stop words"
  else Except.ok (cosineTfidf (validTokens resume_text) (validTokens jd_text))

/-- Python `round(x, 2)` over the real model. -/
noncomputable def round2 (x : ℝ) : ℝ := (round (x * 100) : ℤ) / 100

/-- One run of `match_resume_to_jd`, instrumented with whether control reached
the vectorizer: the empty-input guard returns 0.0 before
`TfidfVectorizer(...)` is constructed, and the `except` clause turns any
raised error into 0.0. -/
noncomputable def match_resume_to_jd_run (resume_text jd_text : String) : ℝ × Bool :=
  if resume_text = "" ∨ jd_text = "" then (0, false)
  else
    match tfidf_similarity resume_text jd_text with
    | Except.error _ => (0, true)
    | Except.ok x => (round2 (x * 100), true)

/-- Models `match_resume_to_jd(resume_text, jd_text)`: the returned score. -/
noncomputable def match_resume_to_jd (resume_text jd_text : String) : ℝ :=
  (match_resume_to_jd_run resume_text jd_text).1

/-! ## Helper lemmas -/

theorem string_data_append (a b : String) : (a ++ b).data = a.data ++ b.data := rfl

theorem pyLower_data (s : String) : (pyLower s).data = s.data.map Char.toLower := rfl

theorem suffix_eq_of_length {s1 s2 l : List Char} (h1 : s1 <:+ l) (h2 : s2 <:+ l)
    (h : s1.length = s2.length) : s1 = s2 := by
  rw [List.suffix_iff_eq_drop.mp h1, List.suffix_iff_eq_drop.mp h2, h]

theorem endswith_false_of_not_suffix {s suf : String} (h : ¬ suf.data <:+ s.data) :
    endswith s suf = false := by
  unfold endswith
  rw [Bool.eq_false_iff]
  intro hc
  exact h (List.isSuffixOf_iff_suffix.mp hc)

theorem endswith_append (stem suf : String) : endswith (stem ++ suf) suf = true := by
  unfold endswith
  rw [List.isSuffixOf_iff_suffix, string_data_append]
  exact List.suffix_append _ _

theorem string_append_ne_empty_of_data {a b : String} (h : b.data ≠ []) : a ++ b ≠ "" := by
  intro hc
  have hd := congrArg String.data hc
  rw [string_data_append] at hd
  rcases List.append_eq_nil.mp hd with ⟨-, h2⟩
  exact h h2

theorem extract_none_of_unrecognized (pdfRead docxRead : String → Option String)
    (path : String) (h1 : endswith path (".pdf") = false)
    (h2 : endswith path (".docx") = false) :
    extract_text_from_file pdfRead docxRead path = none := by
  unfold extract_text_from_file
  by_cases hp : path = "" <;> simp [hp, h1, h2]

/-! ## Claim theorems -/

/-- Claim C1, code-bug evidence: on the specification scenario
"(123) 456-7890" the code returns "123", not "1234567890".  `re.findall`
applied to a pattern with two capture groups yields per match only the tuple
of the two groups — here the non-participating country-code group and the
area code "(123)" — so the join-and-strip post-processing never sees the
trailing seven digits, contradicting the code's own comment ("return the
first full match") and the specification's digits-only canonical form. -/
theorem extract_phone_findall_groups_bug : extract_phone ("(123) 456-7890") = "123" := by
  rfl

/-- Claim C2: `compare_skills` lowercases both inputs and computes pure set
operations — matched = A ∩ B, missing = B − A, and the deduplicated JD set —
characterized here by membership, for all lists including empty ones. -/
theorem compare_skills_set_semantics (A B : List String) (s : String) :
    (s ∈ (compare_skills A B).matched_skills ↔
      ((∃ a ∈ A, pyLower a = s) ∧ (∃ b ∈ B, pyLower b = s)))
  ∧ (s ∈ (compare_skills A B).missing_skills ↔
      ((∃ b ∈ B, pyLower b = s) ∧ ¬ (∃ a ∈ A, pyLower a = s)))
  ∧ (s ∈ (compare_skills A B).jd_skills_parsed ↔ (∃ b ∈ B, pyLower b = s)) := by
  simp [compare_skills, List.mem_filter, List.mem_dedup, List.mem_map]

/-- Claim C3: if either input text is empty (the model of Python's falsy
check, which also covers a missing `None` argument), the scorer returns
exactly 0.0 from its initial guard, and the TF-IDF vectorizer is never
invoked (instrumentation flag `false`). -/
theorem empty_input_short_circuits (resume_text jd_text : String)
    (h : resume_text = "" ∨ jd_text = "") :
    match_resume_to_jd resume_text jd_text = 0 ∧
    (match_resume_to_jd_run resume_text jd_text).2 = false := by
  unfold match_resume_to_jd match_resume_to_jd_run
  rw [if_pos h]
  exact ⟨rfl, rfl⟩

/-- Witness for C3: empty resume text against a nonempty job description. -/
theorem empty_input_short_circuits_witness :
    match_resume_to_jd ("") ("hiring a python developer") = 0 ∧
    (match_resume_to_jd_run ("") ("hiring a python developer")).2 = false :=
  empty_input_short_circuits ("") ("hiring a python developer") (Or.inl rfl)

/-- Claim C5: a file path ending with neither recognized extension ".pdf" nor
".docx" (the code's recognition test) makes text extraction return `none`,
the Python `None` failure; the dispatcher is a total function into `Option`,
so no exception reaches the caller. -/
theorem unsupported_format_returns_none (pdfRead docxRead : String → Option String)
    (path : String) (h1 : endswith path (".pdf") = false)
    (h2 : endswith path (".docx") = false) :
    extract_text_from_file pdfRead docxRead path = none :=
  extract_none_of_unrecognized pdfRead docxRead path h1 h2

/-- Witness for C5: a ".txt" path with readers that would succeed if called. -/
theorem unsupported_format_returns_none_witness :
    extract_text_from_file (fun _ => some ("text")) (fun _ => some ("text"))
      ("resume.txt") = none :=
  unsupported_format_returns_none _ _ ("resume.txt") (by decide) (by decide)

theorem education_foldl_eq (sents acc : List String) :
    sents.foldl (fun acc sent => if eduKeep sent then acc ++ [pyStrip sent] else acc) acc
      = acc ++ (sents.filter eduKeep).map pyStrip := by
  induction sents generalizing acc with
  | nil => simp
  | cons s ss ih =>
    by_cases h : eduKeep s <;>
      simp [List.filter_cons, h, ih, List.append_assoc]

/-- Claim C9: education extraction keeps exactly the sentences containing at
least one keyword of the fixed set (checked as a substring of the lowercased
sentence, i.e. case-insensitively), joins them — whitespace-stripped — with
newlines in original document order, and falls back to the sentinel message
when no sentence qualifies. -/
theorem education_keeps_exactly_keyword_sentences (sents : List String) (s : String) :
    (eduKeep s = true ↔ ∃ k ∈ education_keywords, pyContains (pyLower s) k = true)
  ∧ extract_education sents =
      (if (sents.filter eduKeep).map pyStrip = []
       then "Education information not clearly found"
       else String.intercalate ("\n") ((sents.filter eduKeep).map pyStrip)) := by
  constructor
  · simp [eduKeep, List.any_eq_true]
  · unfold extract_education
    rw [education_foldl_eq]
    simp

/-- Claim C10: extension recognition is case-sensitive.  Any case variant of
"pdf"/"docx" other than the all-lowercase form, appended after a dot, is
treated as an unsupported format (`none`), while the lowercase forms dispatch
to the corresponding reader. -/
theorem extension_case_sensitivity (pdfRead docxRead : String → Option String)
    (stem v : String) (hv : pyLower v = "pdf" ∨ pyLower v = "docx")
    (hpdf : v ≠ "pdf") (hdocx : v ≠ "docx") :
    extract_text_from_file pdfRead docxRead ((stem ++ (".")) ++ v) = none
  ∧ extract_text_from_file pdfRead docxRead (stem ++ (".pdf")) = pdfRead (stem ++ (".pdf"))
  ∧ extract_text_from_file pdfRead docxRead (stem ++ (".docx")) = docxRead (stem ++ (".docx")) := by
  have hL : ((stem ++ (".")) ++ v).data = stem.data ++ ('.' :: v.data) := by
    rw [string_data_append, string_data_append, List.append_assoc]
    rfl
  have hsuf1 : ('.' :: v.data) <:+ ((stem ++ (".")) ++ v).data := by
    rw [hL]; exact List.suffix_append _ _
  refine ⟨?_, ?_, ?_⟩
  · rcases hv with hv1 | hv1
    · have hvd : v.data.map Char.toLower = ['p', 'd', 'f'] := congrArg String.data hv1
      have hlen : v.data.length = 3 := by
        have := congrArg List.length hvd
        simpa using this
      refine extract_none_of_unrecognized _ _ _ ?_ ?_
      · refine endswith_false_of_not_suffix ?_
        intro hs
        have heq := suffix_eq_of_length hs hsuf1 (by simp [hlen])
        have hv2 : v = "pdf" := by
          apply String.ext
          have := congrArg (List.drop 1) heq
          simpa using this.symm
        exact hpdf hv2
      · refine endswith_false_of_not_suffix ?_
        intro hs
        rcases List.suffix_or_suffix_of_suffix hs hsuf1 with h | h
        · have hle := List.IsSuffix.length_le h
          simp [hlen] at hle
        · have heq := suffix_eq_of_length h
            (List.drop_suffix 1 ((".docx").data)) (by simp [hlen])
          have hhead := congrArg (fun l => l.headD ' ') heq
          simp at hhead
    · have hvd : v.data.map Char.toLower = ['d', 'o', 'c', 'x'] := congrArg String.data hv1
      have hlen : v.data.length = 4 := by
        have := congrArg List.length hvd
        simpa using this
      refine extract_none_of_unrecognized _ _ _ ?_ ?_
      · refine endswith_false_of_not_suffix ?_
        intro hs
        rcases List.suffix_or_suffix_of_suffix hs hsuf1 with h | h
        · have heq := suffix_eq_of_length h
            (List.drop_suffix 1 ('.' :: v.data)) (by simp [hlen])
          have hveq : (".pdf").data = v.data := by simpa using heq
          rw [← hveq] at hvd
          exact absurd hvd (by decide)
        · have hle := List.IsSuffix.length_le h
          simp [hlen] at hle
      · refine endswith_false_of_not_suffix ?_
        intro hs
        have heq := suffix_eq_of_length hs hsuf1 (by simp [hlen])
        have hv2 : v = "docx" := by
          apply String.ext
          have := congrArg (List.drop 1) heq
          simpa using this.symm
        exact hdocx hv2
  · unfold extract_text_from_file
    rw [if_neg (string_append_ne_empty_of_data (by decide)), endswith_append]
    rfl
  · unfold extract_text_from_file
    rw [if_neg (string_append_ne_empty_of_data (by decide))]
    have hnp : endswith (stem ++ (".docx")) (".pdf") = false := by
      refine endswith_false_of_not_suffix ?_
      intro hs
      have hd : (".docx").data <:+ (stem ++ (".docx")).data := by
        rw [string_data_append]; exact List.suffix_append _ _
      rcases List.suffix_or_suffix_of_suffix hs hd with h | h
      · exact absurd h (by decide)
      · exact absurd h (by decide)
    rw [hnp, endswith_append]
    rfl

/-- Witness for C10: ".PDF" is rejected while a lowercase ".txt"-free path
with ".pdf" would dispatch; readers are irrelevant for the rejected branch. -/
theorem extension_case_sensitivity_witness :
    extract_text_from_file (fun _ => none) (fun _ => none)
      (("resume" ++ (".")) ++ ("PDF")) = none :=
  (extension_case_sensitivity _ _ ("resume") ("PDF")
    (Or.inl (by decide)) (by decide) (by decide)).1

theorem skillMatchAt_infix {skill : String} {doc : List String} {i : Nat}
    (h : skillMatchAt skill doc i = true) : pySplit skill <:+: lowerTokens doc := by
  unfold skillMatchAt at h
  have heq := of_decide_eq_true h
  have h1 : pySplit skill <+: (lowerTokens doc).drop i := heq ▸ List.take_prefix _ _
  exact h1.isInfix.trans (List.drop_suffix i (lowerTokens doc)).isInfix

theorem matcherSkills_mem {doc sl : List String} {s : String} :
    s ∈ matcherSkills doc sl ↔ ∃ sk ∈ sl, skillHasMatch doc sk = true ∧ pyLower sk = s := by
  unfold matcherSkills
  simp [List.mem_dedup, List.mem_map, List.mem_filter, and_assoc]

/-- Claim C7: skill extraction (resume side and JD side) is case-insensitive —
documents with the same lowercased token stream yield identical results — and
every reported skill comes from a vocabulary pattern matching a span of whole
consecutive tokens, so a vocabulary word occurring only inside a longer token
("javascript" inside "typescript") never matches. -/
theorem skill_matching_case_insensitive_token_aligned :
    (∀ ts us : List String, lowerTokens ts = lowerTokens us →
        extract_skills ts default_skills_list = extract_skills us default_skills_list
      ∧ extract_skills_from_text ts jm_predefined_skills_list
          = extract_skills_from_text us jm_predefined_skills_list)
  ∧ (∀ ts : List String, ∀ s ∈ matcherSkills ts default_skills_list,
      ∃ sk ∈ default_skills_list, s = pyLower sk ∧ pySplit sk <:+: lowerTokens ts)
  ∧ ("javascript") ∉ matcherSkills (["typescript"]) default_skills_list := by
  refine ⟨?_, ?_, by decide⟩
  · intro ts us h
    have hlen : ts.length = us.length := by
      simpa [lowerTokens] using congrArg List.length h
    have hms : ∀ sl : List String, matcherSkills ts sl = matcherSkills us sl := by
      intro sl
      unfold matcherSkills skillHasMatch skillMatchAt
      simp only [h, hlen]
    constructor
    · unfold extract_skills
      rw [hms]
    · unfold extract_skills_from_text
      rw [hms]
  · intro ts s hs
    rcases matcherSkills_mem.mp hs with ⟨sk, hsk, hmatch, hlow⟩
    refine ⟨sk, hsk, hlow.symm, ?_⟩
    unfold skillHasMatch at hmatch
    rcases List.any_eq_true.mp hmatch with ⟨i, -, hi⟩
    exact skillMatchAt_infix hi

/-- Witness for C7: the tokens "PYTHON" and "python" give identical skill
extraction results. -/
theorem skill_matching_case_insensitive_witness :
    extract_skills (["PYTHON"]) default_skills_list
      = extract_skills (["python"]) default_skills_list :=
  (skill_matching_case_insensitive_token_aligned.1 (["PYTHON"]) (["python"]) (by decide)).1

theorem vocab_lower_fixed : ∀ sk ∈ default_skills_list, pyLower sk = sk := by decide

theorem jm_vocab_lower_fixed : ∀ sk ∈ jm_predefined_skills_list, pyLower sk = sk := by decide

/-- Claim C8: every element of a skill set produced by resume-side or JD-side
extraction is a lowercase string and a key of the fixed skill vocabulary; the
resume side otherwise returns exactly its one-element sentinel (which the data
model explicitly excludes from the SkillSet). -/
theorem skill_sets_closed_under_vocabulary (doc : List String) (s : String) :
    (s ∈ matcherSkills doc default_skills_list →
      s ∈ default_skills_list ∧ pyLower s = s)
  ∧ (s ∈ extract_skills_from_text doc jm_predefined_skills_list →
      s ∈ jm_predefined_skills_list ∧ pyLower s = s)
  ∧ (extract_skills doc default_skills_list
        = [("No specific skills found from the predefined list")]
     ∨ ∀ x ∈ extract_skills doc default_skills_list,
        x ∈ default_skills_list ∧ pyLower x = x) := by
  have hcore : ∀ sl : List String, (∀ sk ∈ sl, pyLower sk = sk) →
      ∀ x ∈ matcherSkills doc sl, x ∈ sl ∧ pyLower x = x := by
    intro sl hsl x hx
    rcases matcherSkills_mem.mp hx with ⟨sk, hsk, -, hlow⟩
    have hfix := hsl sk hsk
    have hx2 : x = sk := by rw [← hlow, hfix]
    subst hx2
    exact ⟨hsk, hfix⟩
  refine ⟨fun h => hcore default_skills_list vocab_lower_fixed s h,
          fun h => hcore jm_predefined_skills_list jm_vocab_lower_fixed s h, ?_⟩
  by_cases hf : matcherSkills doc default_skills_list = []
  · left
    simp [extract_skills, hf]
  · right
    intro x hx
    rw [extract_skills, if_neg hf] at hx
    exact hcore default_skills_list vocab_lower_fixed x hx

/-- Witness for C8 at a document consisting of the token "python". -/
theorem skill_sets_closed_under_vocabulary_witness :
    ("python") ∈ default_skills_list ∧ pyLower ("python") = ("python") :=
  (skill_sets_closed_under_vocabulary (["python"]) ("python")).1 (by decide)

theorem tfidfDot_nil_doc (tr tj b : List String) : tfidfDot tr tj [] b = 0 := by
  unfold tfidfDot tfidfAt termCount
  apply Finset.sum_eq_zero
  intro t ht
  simp [List.count_nil]

theorem tfidfDot_disjoint (tr tj : List String) (hdisj : ∀ t ∈ tr, t ∉ tj) :
    tfidfDot tr tj tr tj = 0 := by
  unfold tfidfDot tfidfAt termCount
  apply Finset.sum_eq_zero
  intro t ht
  by_cases h : t ∈ tr
  · have hc : List.count t tj = 0 := List.count_eq_zero.mpr (hdisj t h)
    simp [hc]
  · have hc : List.count t tr = 0 := List.count_eq_zero.mpr h
    simp [hc]

theorem round2_zero : round2 0 = 0 := by
  unfold round2
  norm_num

/-- Claim C4: the similarity scorer never propagates an exception to its
caller: the embedded computation is a total function, and every degenerate
case — an internal vectorization error (the empty-vocabulary `ValueError`), a
text all of whose tokens are discarded (zero tf-idf vector), or two texts
sharing no vocabulary at all — collapses to the returned score 0.0. -/
theorem scorer_degenerate_cases_zero (resume_text jd_text : String)
    (h : (∃ e, tfidf_similarity resume_text jd_text = Except.error e)
       ∨ validTokens resume_text = []
       ∨ validTokens jd_text = []
       ∨ (∀ t ∈ validTokens resume_text, t ∉ validTokens jd_text)) :
    match_resume_to_jd resume_text jd_text = 0 := by
  unfold match_resume_to_jd match_resume_to_jd_run
  by_cases hempty : resume_text = "" ∨ jd_text = ""
  · rw [if_pos hempty]
  · rw [if_neg hempty]
    by_cases hvoc : validTokens resume_text = [] ∧ validTokens jd_text = []
    · unfold tfidf_similarity
      rw [if_pos hvoc]
    · unfold tfidf_similarity
      rw [if_neg hvoc]
      have hx : cosineTfidf (validTokens resume_text) (validTokens jd_text) = 0 := by
        rcases h with ⟨e, he⟩ | hr | hj | hdisj
        · exfalso
          unfold tfidf_similarity at he
          rw [if_neg hvoc] at he
          exact Except.noConfusion he
        · rw [hr]
          unfold cosineTfidf
          rw [if_pos (Or.inl (by rw [tfidfDot_nil_doc]; exact Real.sqrt_zero))]
        · rw [hj]
          unfold cosineTfidf
          rw [if_pos (Or.inr (by rw [tfidfDot_nil_doc]; exact Real.sqrt_zero))]
        · unfold cosineTfidf
          by_cases hg : Real.sqrt (tfidfDot (validTokens resume_text) (validTokens jd_text)
                (validTokens resume_text) (validTokens resume_text)) = 0
              ∨ Real.sqrt (tfidfDot (validTokens resume_text) (validTokens jd_text)
                (validTokens jd_text) (validTokens jd_text)) = 0
          · rw [if_pos hg]
          · rw [if_neg hg, tfidfDot_disjoint _ _ hdisj, zero_div]
      show round2 (cosineTfidf (validTokens resume_text) (validTokens jd_text) * 100) = 0
      rw [hx, zero_mul, round2_zero]

/-- Witness for C4: a stop-word-only resume text (its tf-idf vector is zero)
against a genuine job description scores 0.0. -/
theorem scorer_degenerate_cases_zero_witness :
    match_resume_to_jd ("the and of") ("python developer wanted") = 0 :=
  scorer_degenerate_cases_zero ("the and of") ("python developer wanted")
    (Or.inr (Or.inl (by decide)))

/-- Claim C6: scoring a text against an identical copy of itself returns
exactly 100.0 whenever the text is nonempty and does not consist entirely of
stop words — "word" taken as the vectorizer's own tokenizer defines it, i.e.
some token survives tokenization and the stop list.  The two identical
documents get identical nonzero tf-idf vectors, the cosine is exactly 1, and
`round(1 * 100, 2) = 100.0`. -/
theorem self_similarity_is_100 (t : String) (hne : t ≠ "")
    (hstop : (tokenize t).all (fun w => decide (w ∈ english_stop_words)) = false) :
    match_resume_to_jd t t = 100 := by
  have hvt : validTokens t ≠ [] := by
    unfold validTokens
    intro hnil
    rw [List.filter_eq_nil_iff] at hnil
    have hall : (tokenize t).all (fun w => decide (w ∈ english_stop_words)) = true := by
      rw [List.all_eq_true]
      intro w hw
      have hn := hnil w hw
      simp only [decide_eq_true_eq] at hn ⊢
      exact not_not.mp hn
    rw [hall] at hstop
    exact Bool.noConfusion hstop
  rcases List.exists_mem_of_ne_nil (validTokens t) hvt with ⟨t0, ht0⟩
  have hidf : idfWeight (validTokens t) (validTokens t) t0 = 1 := by
    unfold idfWeight docFreq
    rw [if_pos ht0]
    norm_num [Real.log_one]
  have hpos : 0 < tfidfDot (validTokens t) (validTokens t) (validTokens t) (validTokens t) := by
    unfold tfidfDot
    apply Finset.sum_pos'
    · intro i hi
      exact mul_self_nonneg _
    · refine ⟨t0, ?_, ?_⟩
      · unfold vocabOf
        rw [List.mem_toFinset]
        exact List.mem_append.mpr (Or.inl ht0)
      · have hc : 0 < ((List.count t0 (validTokens t) : ℕ) : ℝ) := by
          exact_mod_cast List.count_pos_iff.mpr ht0
        unfold tfidfAt termCount
        rw [hidf, mul_one]
        exact mul_pos hc hc
  have hs0 : Real.sqrt (tfidfDot (validTokens t) (validTokens t)
      (validTokens t) (validTokens t)) ≠ 0 :=
    ne_of_gt (Real.sqrt_pos.mpr hpos)
  have hcos : cosineTfidf (validTokens t) (validTokens t) = 1 := by
    unfold cosineTfidf
    rw [if_neg (not_or.mpr ⟨hs0, hs0⟩), Real.mul_self_sqrt hpos.le]
    exact div_self (ne_of_gt hpos)
  unfold match_resume_to_jd match_resume_to_jd_run
  rw [if_neg (not_or.mpr ⟨hne, hne⟩)]
  unfold tfidf_similarity
  rw [if_neg (fun hc => hvt hc.1)]
  show round2 (cosineTfidf (validTokens t) (validTokens t) * 100) = 100
  rw [hcos, one_mul]
  unfold round2
  rw [show ((100 : ℝ) * 100) = ((10000 : ℤ) : ℝ) by norm_num, round_intCast]
  norm_num

/-- Witness for C6: "python developer" scored against itself gives 100.0. -/
theorem self_similarity_is_100_witness :
    match_resume_to_jd ("python developer") ("python developer") = 100 :=
  self_similarity_is_100 ("python developer") (by decide) (by decide)
